import Mathlib

/-!
Verification of the NaaS chaos-injection middleware (`src/index.js`).

The decision engine is embedded shallowly:

* JS numbers that the engine compares and divides are modelled as `ℚ`
  (all the arithmetic the claims touch is exact on the values involved);
* the two `Math.random()` draws used per request are passed explicitly
  (the eligibility roll already scaled to `[0,100)`, the selection roll
  in `[0,1)`);
* custom chaos hooks are modelled by the values they return (`JSVal`),
  since only those values drive the engine's control flow;
* the current `NODE_ENV` (read ambiently by the engine) is passed as an
  explicit `env : String` argument;
* `throw` in the constructor / `updateConfig` becomes `Except String`;
  `updateConfig` additionally returns the final engine state, because the
  source mutates `this.config` before validating, so the state after a
  throw is observable;
* for `getStats` a small store model (`Store`, `ConfigRef`) captures the
  reference semantics of the object spread `{...this.config}`.
-/

namespace NaaS

/-- JS runtime values, restricted to the shapes relevant to hook results
and truthiness tests. -/
inductive JSVal where
  | vBool (b : Bool)
  | vNum (q : ℚ)
  | vStr (s : String)
  | vNull
  | vUndefined
deriving DecidableEq

/-- JS ToBoolean: the standard falsy values (`false`, `0`, `""`, `null`,
`undefined`). -/
def jsFalsy : JSVal → Bool
  | .vBool b => !b
  | .vNum q => decide (q = 0)
  | .vStr s => decide (s = "")
  | .vNull => true
  | .vUndefined => true

/-- JS strict equality against the literal `false`, as in
`result === false` (src/index.js line 214). -/
def isStrictFalse (v : JSVal) : Bool := v == JSVal.vBool false

/-- Route patterns: a string (literal / prefix match), a RegExp (modelled
by its `test` predicate), or any other shape (never matches). -/
inductive RoutePattern where
  | str (s : String)
  | regex (test : String → Bool)
  | other

/-- Boolean prefix test on character lists. -/
def listPrefixB : List Char → List Char → Bool
  | [], _ => true
  | _, [] => false
  | a :: as, b :: bs => a == b && listPrefixB as bs

/-- JS `String.prototype.startsWith`: `s` starts with `pat`. -/
def jsStartsWith (s pat : String) : Bool := listPrefixB pat.data s.data

/-- `_matchesRoute` (src/index.js lines 118-126): string patterns match by
equality or prefix, RegExp patterns by their test, anything else fails. -/
def matchesRoute (path : String) : RoutePattern → Bool
  | .str s => path == s || jsStartsWith path s
  | .regex t => t path
  | .other => false

/-- One entry of the error catalog.  `weight` is `none` when the field is
absent; `normalizedWeight` is the derived field the engine writes, `0`
before normalization (JS `undefined` never read before it is set). -/
structure ErrorDef where
  code : Int
  message : String
  weight : Option ℚ := none
  normalizedWeight : ℚ := 0
deriving DecidableEq

/-- JS `error.weight || 1`: an absent or zero weight falls back to `1`. -/
def effWeight (e : ErrorDef) : ℚ :=
  match e.weight with
  | none => 1
  | some q => if q = 0 then 1 else q

/-- Delay policy. -/
structure Delays where
  enabled : Bool
  min : ℚ
  max : ℚ
  probability : ℚ
deriving DecidableEq

/-- Logging settings (the logger object itself carries no decision
logic and is dropped). -/
structure LoggingConfig where
  enabled : Bool
  level : String
deriving DecidableEq

/-- The engine configuration `this.config` (src/index.js lines 3-42).
Custom chaos hooks are modelled by the values they resolve to. -/
structure Config where
  errorRate : ℚ
  targetRoutes : List RoutePattern
  excludeRoutes : List RoutePattern
  targetMethods : List String
  errors : List ErrorDef
  delays : Delays
  responseFormat : String
  customHeaders : List (String × String)
  logging : LoggingConfig
  environments : List String
  customChaos : List JSVal

/-- Logging options as passed to the constructor (`options.logging?.…`). -/
structure LoggingOpts where
  enabled : Option Bool := none
  level : Option String := none

/-- The constructor's `options` object; `none` means the field is absent. -/
structure Options where
  errorRate : Option ℚ := none
  targetRoutes : Option (List RoutePattern) := none
  excludeRoutes : Option (List RoutePattern) := none
  targetMethods : Option (List String) := none
  errors : Option (List ErrorDef) := none
  delays : Option Delays := none
  responseFormat : Option String := none
  customHeaders : Option (List (String × String)) := none
  logging : LoggingOpts := {}
  environments : Option (List String) := none
  customChaos : Option (List JSVal) := none

/-- JS `v || d` for a numeric option: both an absent and a zero value fall
back to the default (`0` is falsy). -/
def jsOrNum (v : Option ℚ) (d : ℚ) : ℚ :=
  match v with
  | none => d
  | some q => if q = 0 then d else q

/-- JS `v || d` for a string option: both an absent and an empty value
fall back to the default (`""` is falsy). -/
def jsOrStr (v : Option String) (d : String) : String :=
  match v with
  | none => d
  | some s => if s = "" then d else s

/-- Default error catalog (src/index.js lines 14-22). -/
def defaultErrors : List ErrorDef :=
  [ { code := 500, message := "Internal Server Error", weight := some 30 },
    { code := 503, message := "Service Unavailable", weight := some 25 },
    { code := 502, message := "Bad Gateway", weight := some 20 },
    { code := 504, message := "Gateway Timeout", weight := some 10 },
    { code := 429, message := "Too Many Requests", weight := some 10 },
    { code := 404, message := "Not Found", weight := some 3 },
    { code := 403, message := "Forbidden", weight := some 2 } ]

/-- Default delay policy (src/index.js lines 23-28). -/
def defaultDelays : Delays :=
  { enabled := true, min := 100, max := 5000, probability := 30 }

/-- Default target methods (src/index.js lines 7-13). -/
def defaultMethods : List String := ["GET", "POST", "PUT", "DELETE", "PATCH"]

/-- Default active environments (src/index.js lines 36-40). -/
def defaultEnvironments : List String := ["development", "testing", "production"]

/-- The config object built by the constructor before validation
(src/index.js lines 3-42).  Note that `options.errorRate || 10` uses JS
truthiness, while the array- and object-valued options only fall back
when absent (arrays and objects are always truthy). -/
def buildConfig (o : Options) : Config :=
  { errorRate := jsOrNum o.errorRate 10
    targetRoutes := o.targetRoutes.getD []
    excludeRoutes := o.excludeRoutes.getD []
    targetMethods := o.targetMethods.getD defaultMethods
    errors := o.errors.getD defaultErrors
    delays := o.delays.getD defaultDelays
    responseFormat := jsOrStr o.responseFormat "json"
    customHeaders := o.customHeaders.getD []
    logging :=
      { enabled := decide (o.logging.enabled ≠ some false)
        level := jsOrStr o.logging.level "info" }
    environments := o.environments.getD defaultEnvironments
    customChaos := o.customChaos.getD [] }

/-- `_validateConfig` (src/index.js lines 51-65); the `.error` carries the
exact thrown message.  An entry is malformed when its code or message is
falsy (`!error.code || !error.message`). -/
def validateConfig (c : Config) : Except String Unit :=
  if c.errorRate < 0 ∨ c.errorRate > 100 then
    .error "Error rate must be between 0 and 100"
  else if c.errors.length = 0 then
    .error "Errors configuration must be a non-empty array"
  else if c.errors.any (fun e => decide (e.code = 0) || decide (e.message = "")) then
    .error "Each error must have a code and message"
  else
    .ok ()

/-- The reduce over `error.weight || 1` (src/index.js lines 68-71). -/
def totalWeight (es : List ErrorDef) : ℚ :=
  es.foldl (fun sum e => sum + effWeight e) 0

/-- `_normalizeErrorWeights` (src/index.js lines 67-75). -/
def normalizeErrorWeights (es : List ErrorDef) : List ErrorDef :=
  es.map (fun e => { e with normalizedWeight := effWeight e / totalWeight es })

/-- The mutable instance state: `this.config` plus `this._originalErrorRate`
(which starts out `undefined`). -/
structure EngineState where
  config : Config
  originalErrorRate : Option ℚ := none

/-- The constructor (src/index.js lines 2-49): build the config, validate
(throwing on failure, so no instance is produced), then normalize the
error weights. -/
def construct (o : Options) : Except String EngineState :=
  let c := buildConfig o
  match validateConfig c with
  | .error msg => .error msg
  | .ok _ =>
      .ok { config := { c with errors := normalizeErrorWeights c.errors }
            originalErrorRate := none }

/-- A partial config for `updateConfig`; `none` means the key is absent
from `newConfig` and the spread keeps the current value. -/
structure ConfigUpdate where
  errorRate : Option ℚ := none
  targetRoutes : Option (List RoutePattern) := none
  excludeRoutes : Option (List RoutePattern) := none
  targetMethods : Option (List String) := none
  errors : Option (List ErrorDef) := none
  delays : Option Delays := none
  responseFormat : Option String := none
  customHeaders : Option (List (String × String)) := none
  logging : Option LoggingConfig := none
  environments : Option (List String) := none
  customChaos : Option (List JSVal) := none

/-- The spread merge `{...this.config, ...newConfig}` (src/index.js
line 268): supplied keys override, absent keys keep the current value. -/
def mergeConfig (c : Config) (u : ConfigUpdate) : Config :=
  { errorRate := u.errorRate.getD c.errorRate
    targetRoutes := u.targetRoutes.getD c.targetRoutes
    excludeRoutes := u.excludeRoutes.getD c.excludeRoutes
    targetMethods := u.targetMethods.getD c.targetMethods
    errors := u.errors.getD c.errors
    delays := u.delays.getD c.delays
    responseFormat := u.responseFormat.getD c.responseFormat
    customHeaders := u.customHeaders.getD c.customHeaders
    logging := u.logging.getD c.logging
    environments := u.environments.getD c.environments
    customChaos := u.customChaos.getD c.customChaos }

/-- `updateConfig` (src/index.js lines 267-271).  The source assigns the
merged object to `this.config` first and only then validates, so when
validation throws, the engine is left holding the merged (invalid,
un-renormalized) config.  The first component is the thrown error (or
`ok`), the second the engine state after the call. -/
def updateConfig (s : EngineState) (u : ConfigUpdate) :
    Except String Unit × EngineState :=
  let merged := mergeConfig s.config u
  match validateConfig merged with
  | .error msg => (.error msg, { s with config := merged })
  | .ok _ =>
      (.ok (),
       { s with config := { merged with errors := normalizeErrorWeights merged.errors } })

/-- `disable` (src/index.js lines 281-284): unconditionally save the
current rate, then zero it. -/
def disable (s : EngineState) : EngineState :=
  { config := { s.config with errorRate := 0 }
    originalErrorRate := some s.config.errorRate }

/-- `enable` (src/index.js lines 286-290): restore the saved rate if one
exists (`!== undefined`). -/
def enable (s : EngineState) : EngineState :=
  match s.originalErrorRate with
  | some r => { s with config := { s.config with errorRate := r } }
  | none => s

/-- The value-level content of the object `getStats` returns
(src/index.js lines 273-279). -/
structure Stats where
  config : Config
  environment : String
  version : String

/-- `getStats` observed at the level of values: the spread copy has the
same field values as the live config. -/
def getStats (s : EngineState) (env : String) : Stats :=
  { config := s.config, environment := env, version := "1.0.0" }

/-- The request data the engine reads. -/
structure Request where
  method : String
  path : String

/-- `_shouldApplyChaos` (src/index.js lines 77-116).  `env` is the
resolved `process.env.NODE_ENV || "development"`; `roll` is the value of
`Math.random() * 100`, in `[0,100)`. -/
def shouldApplyChaos (c : Config) (req : Request) (env : String) (roll : ℚ) : Bool :=
  if c.errorRate = 0 then false
  else if c.environments.contains env = false then false
  else if c.targetMethods.contains req.method = false then false
  else if c.excludeRoutes.any (matchesRoute req.path) = true then false
  else if 0 < c.targetRoutes.length ∧ c.targetRoutes.any (matchesRoute req.path) = false then
    false
  else if c.errorRate = 100 then true
  else decide (roll < c.errorRate)

/-- The cumulative walk of `_selectRandomError` (src/index.js lines 132-137). -/
def selectGo (r : ℚ) (cum : ℚ) : List ErrorDef → Option ErrorDef
  | [] => none
  | e :: rest =>
      if r ≤ cum + e.normalizedWeight then some e else selectGo r (cum + e.normalizedWeight) rest

/-- Fallback entry standing in for `errors[0]` on an empty catalog
(unreachable after validation). -/
def fallbackError : ErrorDef := { code := 500, message := "Internal Server Error" }

/-- `_selectRandomError` (src/index.js lines 128-140): first entry whose
cumulative normalized weight reaches the roll, else `errors[0]`. -/
def selectRandomError (es : List ErrorDef) (r : ℚ) : ErrorDef :=
  (selectGo r 0 es).getD (es.headD fallbackError)

/-- Index of the first hook result that is strictly `false` (the loop in
src/index.js lines 212-217 returns at the first such hook). -/
def firstStrictFalse : List JSVal → Option Nat
  | [] => none
  | v :: rest =>
      if isStrictFalse v then some 0 else (firstStrictFalse rest).map (· + 1)

/-- Outcome of one middleware invocation: a custom hook handled the
response (the engine returns without calling `next`), pass-through
(`next()` is called), or an injected chaos response. -/
inductive MwOutcome where
  | handledByHook (k : Nat)
  | passThrough
  | chaos (e : ErrorDef)
deriving DecidableEq

/-- The decision core of `middleware` (src/index.js lines 209-265): run
the custom hooks in order, stop at the first strict `false`; otherwise
gate on `_shouldApplyChaos` and either pass through or select an error. -/
def middleware (c : Config) (req : Request) (env : String) (roll errRoll : ℚ) :
    MwOutcome :=
  match firstStrictFalse c.customChaos with
  | some k => .handledByHook k
  | none =>
      if shouldApplyChaos c req env roll then .chaos (selectRandomError c.errors errRoll)
      else .passThrough

/-- Error objects as stored on the heap, for the reference-semantics model
of `getStats`. -/
structure ErrObj where
  code : Int
  message : String
  weight : ℚ
  normalizedWeight : ℚ
deriving DecidableEq

/-- A store of JS objects: array cells hold lists of object addresses,
object cells hold error objects. -/
structure Store where
  arrays : Nat → List Nat
  objects : Nat → ErrObj

/-- The config as held on the engine under reference semantics: the
scalar `errorRate` plus the address of the `errors` array. -/
structure ConfigRef where
  errorRate : ℚ
  errorsArr : Nat

/-- The object returned by `getStats` under reference semantics. -/
structure StatsRef where
  config : ConfigRef
  environment : String
  version : String

/-- `getStats` under reference semantics: the spread `{...this.config}`
copies the scalar `errorRate` by value and the `errors` array by
reference — the snapshot holds the same array address as the live
config. -/
def getStatsRef (c : ConfigRef) (env : String) : StatsRef :=
  { config := { errorRate := c.errorRate, errorsArr := c.errorsArr }
    environment := env
    version := "1.0.0" }

/-- Mutate the error object stored at address `a`. -/
def writeObj (st : Store) (a : Nat) (o : ErrObj) : Store :=
  { st with objects := fun n => if n = a then o else st.objects n }

/-- The error catalog a config observes through the store. -/
def readErrors (st : Store) (c : ConfigRef) : List ErrObj :=
  (st.arrays c.errorsArr).map st.objects

/-- The config a default-constructed engine holds (all options absent). -/
def defaultConfig : Config := buildConfig {}

/-- The engine state produced by `new NaaS()` with no options. -/
def sDefault : EngineState :=
  { config := { defaultConfig with errors := normalizeErrorWeights defaultConfig.errors } }

/-- An engine state holding a valid config with `errorRate = 50`. -/
def s50 : EngineState := { config := { defaultConfig with errorRate := 50 } }

/-- A store holding one error object (address 0) referenced by the errors
array at address 0. -/
def store0 : Store :=
  { arrays := fun _ => [0]
    objects := fun _ => { code := 500, message := "Internal Server Error", weight := 30, normalizedWeight := 1 } }

/-- The live config of the engine in `store0`. -/
def live0 : ConfigRef := { errorRate := 10, errorsArr := 0 }

/-- The snapshot `getStats()` hands out for `live0`. -/
def snap0 : StatsRef := getStatsRef live0 "development"

/-- `store0` after mutating, through the snapshot's errors reference, the
first entry of `snap0.config.errors`. -/
def store1 : Store :=
  writeObj store0 ((store0.arrays snap0.config.errorsArr).headD 0)
    { code := 418, message := "mutated through the snapshot", weight := 1, normalizedWeight := 1 }

/-- Sum of the `normalizedWeight` field over a catalog. -/
def sumNW (es : List ErrorDef) : ℚ := (es.map (fun e => e.normalizedWeight)).sum

/-- The catalog of the weight-distribution test in the repo's test suite
(weights 50 / 30 / 20). -/
def es3 : List ErrorDef :=
  [ { code := 500, message := "Error 1", weight := some 50 },
    { code := 502, message := "Error 2", weight := some 30 },
    { code := 503, message := "Error 3", weight := some 20 } ]

/-- Merging a partial update that only sets `errorRate` yields a config
whose `errorRate` is exactly the supplied value. -/
theorem mergeConfig_errorRate (c : Config) (q : ℚ) :
    (mergeConfig c { errorRate := some q }).errorRate = q := rfl

/-- When the merged config fails validation, `updateConfig` returns that
error and leaves the engine holding the merged config. -/
theorem updateConfig_of_invalid (s : EngineState) (u : ConfigUpdate) (msg : String)
    (h : validateConfig (mergeConfig s.config u) = .error msg) :
    updateConfig s u = (.error msg, { s with config := mergeConfig s.config u }) := by
  simp only [updateConfig, h]

/-- An out-of-range rate makes `validateConfig` fail with the rate
message. -/
theorem validateConfig_rate_out_of_range (c : Config) (h : c.errorRate < 0 ∨ c.errorRate > 100) :
    validateConfig c = .error "Error rate must be between 0 and 100" := by
  unfold validateConfig
  rw [if_pos h]

/-- C1: the claim asserts that after a failed `updateConfig` the previous
config is still in effect.  The source merges into `this.config` before
validating, so the failed update leaves the merged, invalid config
behind: starting from the default engine (rate 10), updating with
`errorRate = -1` throws the ConfigError yet `getStats` afterwards reports
`errorRate = -1`, not `10`. -/
theorem c1_counterexample :
    sDefault.config.errorRate = 10
  ∧ (updateConfig sDefault { errorRate := some (-1) }).1
      = Except.error "Error rate must be between 0 and 100"
  ∧ (getStats (updateConfig sDefault { errorRate := some (-1) }).2 "development").config.errorRate
      = -1 := by
  refine ⟨rfl, ?_, ?_⟩ <;> rfl

/-- C1 (amended): for every engine state and every update carrying an
out-of-range `errorRate`, `updateConfig` raises the ConfigError, but the
previously active config does not remain in effect — the engine is left
holding the merged config, so the invalid rate is observable afterwards. -/
theorem c1_update_failure_keeps_merged (s : EngineState) (q : ℚ)
    (h : q < 0 ∨ q > 100) :
    (updateConfig s { errorRate := some q }).1
      = Except.error "Error rate must be between 0 and 100"
  ∧ (getStats (updateConfig s { errorRate := some q }).2 "development").config.errorRate = q := by
  have hv : validateConfig (mergeConfig s.config { errorRate := some q })
      = .error "Error rate must be between 0 and 100" := by
    apply validateConfig_rate_out_of_range
    rw [mergeConfig_errorRate]
    exact h
  rw [updateConfig_of_invalid s _ _ hv]
  exact ⟨rfl, mergeConfig_errorRate s.config q⟩

/-- C1 witness: the amended theorem applied at the default engine and the
update `errorRate = -1`. -/
theorem c1_witness :
    (updateConfig sDefault { errorRate := some (-1) }).1
      = Except.error "Error rate must be between 0 and 100"
  ∧ (getStats (updateConfig sDefault { errorRate := some (-1) }).2 "development").config.errorRate
      = -1 :=
  c1_update_failure_keeps_merged sDefault (-1) (Or.inl (by norm_num))

/-- C2: the claim asserts that repeated `disable()` never overwrites the
saved slot with `0`.  The source saves the current rate unconditionally,
so the second `disable()` saves the intermediate `0`: starting at rate
50, `disable(); disable(); enable()` ends at rate `0`, not `50`. -/
theorem c2_counterexample :
    s50.config.errorRate = 50
  ∧ (enable (disable (disable s50))).config.errorRate = 0
  ∧ (0 : ℚ) ≠ 50 := by
  refine ⟨rfl, rfl, by norm_num⟩

/-- C2 (amended): a single `disable()` followed by `enable()` restores the
prior rate, but `disable()` is not idempotent while already disabled:
each call overwrites the saved slot with the current rate, so two
`disable()` calls save `0` and the subsequent `enable()` sets the rate to
`0` instead of the original value. -/
theorem c2_disable_enable (s : EngineState) :
    (enable (disable s)).config.errorRate = s.config.errorRate
  ∧ (disable (disable s)).originalErrorRate = some 0
  ∧ (enable (disable (disable s))).config.errorRate = 0 :=
  ⟨rfl, rfl, rfl⟩

/-- C3: constructing with the valid value `errorRate = 0` does not keep
`0` and does not throw — `options.errorRate || 10` treats `0` as falsy
and silently replaces it with the default `10`, although `0` passes
validation.  This contradicts the repo's own test, which installs
`createNaaS({ errorRate: 0 })` and expects every request to pass through
(with rate 10 the middleware injects errors on roughly 10% of requests). -/
theorem c3_zero_rate_coerced :
    (buildConfig { errorRate := some 0 }).errorRate = 10
  ∧ (construct { errorRate := some 0 }).toOption.map (fun s => s.config.errorRate) = some 10
  ∧ validateConfig { defaultConfig with errorRate := 0 } = .ok ()
  ∧ (10 : ℚ) ≠ 0 := by
  refine ⟨rfl, rfl, rfl, by norm_num⟩

/-- C4: the claim asserts `getStats` returns a deep snapshot sharing no
mutable references.  The source copies the config with a one-level
spread, so the errors array and its entries are shared: mutating the
first entry reached through the snapshot changes the error catalog the
live config observes. -/
theorem c4_counterexample :
    snap0.config.errorsArr = live0.errorsArr
  ∧ readErrors store0 live0
      = [{ code := 500, message := "Internal Server Error", weight := 30, normalizedWeight := 1 }]
  ∧ readErrors store1 live0
      = [{ code := 418, message := "mutated through the snapshot", weight := 1, normalizedWeight := 1 }]
  ∧ readErrors store1 live0 ≠ readErrors store0 live0 := by
  refine ⟨rfl, rfl, rfl, by decide⟩

/-- C4 (amended): `getStats` returns a shallow snapshot.  The top-level
scalar fields (`errorRate`, the version string) are copied by value, but
the nested errors array is shared by reference, so under every store
state — including any later mutation of an error entry, from either
side — the snapshot and the live config observe exactly the same error
catalog. -/
theorem c4_shallow_snapshot (c : ConfigRef) (env : String) :
    (getStatsRef c env).config.errorRate = c.errorRate
  ∧ (getStatsRef c env).version = "1.0.0"
  ∧ (getStatsRef c env).config.errorsArr = c.errorsArr
  ∧ ∀ (st : Store) (a : Nat) (o : ErrObj),
      readErrors (writeObj st a o) (getStatsRef c env).config = readErrors (writeObj st a o) c :=
  ⟨rfl, rfl, rfl, fun _ _ _ => rfl⟩

/-- A list containing a strict `false` has a first strict-`false` index. -/
theorem firstStrictFalse_of_mem (l : List JSVal) (h : JSVal.vBool false ∈ l) :
    ∃ k, firstStrictFalse l = some k := by
  induction l with
  | nil => cases h
  | cons v rest ih =>
      by_cases hv : isStrictFalse v = true
      · exact ⟨0, by simp [firstStrictFalse, hv]⟩
      · have hm : JSVal.vBool false ∈ rest := by
          rcases List.mem_cons.mp h with h1 | h2
          · exact absurd (by rw [← h1]; rfl) hv
          · exact h2
        obtain ⟨k, hk⟩ := ih hm
        exact ⟨k + 1, by simp [firstStrictFalse, hv, hk]⟩

/-- C5: the claim asserts that any falsy hook result terminates
processing.  The source tests `result === false` strictly, so a hook
resolving to `undefined` — a falsy value — does not terminate: with such
a hook and `errorRate = 0`, the middleware still calls through to the
next handler instead of stopping. -/
theorem c5_counterexample :
    jsFalsy JSVal.vUndefined = true
  ∧ middleware { defaultConfig with errorRate := 0, customChaos := [JSVal.vUndefined] }
      { method := "GET", path := "/test" } "development" 0 0 = MwOutcome.passThrough := by
  exact ⟨rfl, rfl⟩

/-- C5 (amended): a custom hook resolving to the value strictly equal to
`false` terminates processing immediately — for every configuration,
request, environment and random draw the outcome is `handledByHook`: no
eligibility check, delay, error selection or emission takes place and the
next handler is not called.  Falsy results other than `false` do not
terminate processing. -/
theorem c5_strict_false_handles (c : Config) (req : Request) (env : String)
    (roll errRoll : ℚ) (h : JSVal.vBool false ∈ c.customChaos) :
    ∃ k, middleware c req env roll errRoll = MwOutcome.handledByHook k := by
  obtain ⟨k, hk⟩ := firstStrictFalse_of_mem c.customChaos h
  exact ⟨k, by simp [middleware, hk]⟩

/-- C5 witness: a hook list whose second hook returns strict `false`
terminates the default engine's processing, for a concrete request and
draws. -/
theorem c5_witness :
    ∃ k,
      middleware { defaultConfig with customChaos := [JSVal.vNull, JSVal.vBool false] }
        { method := "GET", path := "/test" } "development" 0 0 = MwOutcome.handledByHook k :=
  c5_strict_false_handles _ _ _ _ _ (by simp)

/-- C6: with `errorRate = 0` the eligibility check is `false` for every
request, environment and sampling roll — the fast exit fires before any
filter or the random comparison is consulted. -/
theorem c6_zero_rate_never (c : Config) (req : Request) (env : String) (roll : ℚ)
    (h : c.errorRate = 0) : shouldApplyChaos c req env roll = false := by
  simp [shouldApplyChaos, h]

/-- C6 witness: the zero-rate theorem at the default config forced to
rate `0`, for a concrete request and a roll that would otherwise pass. -/
theorem c6_witness :
    shouldApplyChaos { defaultConfig with errorRate := 0 }
      { method := "GET", path := "/test" } "development" 0 = false :=
  c6_zero_rate_never _ _ _ _ rfl

/-- C7: with `errorRate = 100`, every request that passes the
environment, method, exclude-route and target-route checks is eligible
for every sampling roll (first conjunct); and the shortcut is not an
absolute override — with `errorRate = 100` but a method outside
`targetMethods`, the request is still not eligible (second conjunct). -/
theorem c7_full_rate_deterministic :
    (∀ (c : Config) (req : Request) (env : String) (roll : ℚ),
        c.errorRate = 100 →
        env ∈ c.environments →
        req.method ∈ c.targetMethods →
        c.excludeRoutes.any (matchesRoute req.path) = false →
        (c.targetRoutes = [] ∨ c.targetRoutes.any (matchesRoute req.path) = true) →
        shouldApplyChaos c req env roll = true)
  ∧ (∀ (c : Config) (req : Request) (env : String) (roll : ℚ),
        c.errorRate = 100 →
        req.method ∉ c.targetMethods →
        shouldApplyChaos c req env roll = false) := by
  constructor
  · intro c req env roll h100 henv hmeth hexcl htgt
    have h0 : (100 : ℚ) ≠ 0 := by norm_num
    rcases htgt with ht | ht <;>
      simp [shouldApplyChaos, h100, henv, hmeth, hexcl, ht, h0]
  · intro c req env roll h100 hmeth
    have h0 : (100 : ℚ) ≠ 0 := by norm_num
    simp [shouldApplyChaos, h100, hmeth, h0]

/-- C7 witness: rate `100` with all filters passing is eligible at a roll
that would fail any probabilistic comparison; rate `100` with a
non-matching method is still not eligible. -/
theorem c7_witness :
    shouldApplyChaos { defaultConfig with errorRate := 100 }
      { method := "GET", path := "/test" } "development" 99 = true
  ∧ shouldApplyChaos { defaultConfig with errorRate := 100, targetMethods := ["POST"] }
      { method := "GET", path := "/test" } "development" 0 = false :=
  ⟨c7_full_rate_deterministic.1 _ _ _ _ rfl (by decide) (by decide) rfl (Or.inl rfl),
   c7_full_rate_deterministic.2 _ _ _ _ rfl (by decide)⟩

/-- A request whose path matches some exclude pattern is never eligible:
every branch of the eligibility chain from that point on yields `false`,
and every earlier exit also yields `false`. -/
theorem shouldApplyChaos_of_excluded (c : Config) (req : Request) (env : String) (roll : ℚ)
    (h : c.excludeRoutes.any (matchesRoute req.path) = true) :
    shouldApplyChaos c req env roll = false := by
  unfold shouldApplyChaos
  rw [h]
  split
  · rfl
  · split
    · rfl
    · split
      · rfl
      · simp

/-- C8: a path matching at least one `excludeRoutes` pattern is never
eligible, for every config (any `errorRate`, any `targetRoutes` — also
when a target pattern matches the same path), environment and roll: the
exclude check always wins. -/
theorem c8_exclude_wins (c : Config) (req : Request) (env : String) (roll : ℚ)
    (h : c.excludeRoutes.any (matchesRoute req.path) = true) :
    shouldApplyChaos c req env roll = false :=
  shouldApplyChaos_of_excluded c req env roll h

/-- C8 witness: a config that both targets and excludes `"/both"`, with
rate `50`, is not eligible on that path even at roll `0` (which would
pass the probabilistic comparison). -/
theorem c8_witness :
    shouldApplyChaos
      { defaultConfig with
          errorRate := 50
          targetRoutes := [RoutePattern.str "/both"]
          excludeRoutes := [RoutePattern.str "/both"] }
      { method := "GET", path := "/both" } "development" 0 = false :=
  c8_exclude_wins _ _ _ _ rfl

/-- Every string starts with the empty string. -/
theorem jsStartsWith_empty (s : String) : jsStartsWith s "" = true := by
  simp [jsStartsWith, show ("" : String).data = [] from rfl, listPrefixB]

/-- C10: the string pattern `""` matches every path (prefix semantics);
hence an empty string among `excludeRoutes` makes `shouldApplyChaos`
`false` for every request, config, environment and roll, and an empty
string among `targetRoutes` makes the target-route check pass for every
path. -/
theorem c10_empty_pattern_matches_all :
    (∀ p : String, matchesRoute p (RoutePattern.str "") = true)
  ∧ (∀ (c : Config) (req : Request) (env : String) (roll : ℚ),
        RoutePattern.str "" ∈ c.excludeRoutes →
        shouldApplyChaos c req env roll = false)
  ∧ (∀ (ts : List RoutePattern) (p : String),
        RoutePattern.str "" ∈ ts → ts.any (matchesRoute p) = true) := by
  have hmatch : ∀ p : String, matchesRoute p (RoutePattern.str "") = true := by
    intro p
    simp [matchesRoute, jsStartsWith_empty]
  have hany : ∀ (ts : List RoutePattern) (p : String),
      RoutePattern.str "" ∈ ts → ts.any (matchesRoute p) = true := by
    intro ts p hm
    exact List.any_eq_true.mpr ⟨RoutePattern.str "", hm, hmatch p⟩
  refine ⟨hmatch, ?_, hany⟩
  intro c req env roll hm
  exact shouldApplyChaos_of_excluded c req env roll (hany c.excludeRoutes req.path hm)

/-- C10 witness: the empty pattern matches a concrete path; a config
excluding `""` at rate `50` is not eligible for a concrete request; and a
target list containing `""` passes the target check for a concrete
path. -/
theorem c10_witness :
    matchesRoute "/anything" (RoutePattern.str "") = true
  ∧ shouldApplyChaos
      { defaultConfig with errorRate := 50, excludeRoutes := [RoutePattern.str ""] }
      { method := "GET", path := "/api/users" } "development" 0 = false
  ∧ [RoutePattern.str "/api", RoutePattern.str ""].any (matchesRoute "/zzz") = true :=
  ⟨c10_empty_pattern_matches_all.1 "/anything",
   c10_empty_pattern_matches_all.2.1 _ _ _ _ (by simp),
   c10_empty_pattern_matches_all.2.2 _ _ (by simp)⟩

/-- The weight reduce, expressed as a map-sum. -/
theorem foldl_add_effWeight (es : List ErrorDef) (a : ℚ) :
    es.foldl (fun sum e => sum + effWeight e) a = a + (es.map effWeight).sum := by
  induction es generalizing a with
  | nil => simp
  | cons e t ih => simp [List.foldl_cons, ih, add_assoc]

/-- `totalWeight` is the sum of the effective weights. -/
theorem totalWeight_eq_sum (es : List ErrorDef) :
    totalWeight es = (es.map effWeight).sum := by
  simpa using foldl_add_effWeight es 0

/-- Dividing every list element by `d` divides the sum by `d`. -/
theorem sum_map_div (l : List ℚ) (d : ℚ) :
    (l.map (fun x => x / d)).sum = l.sum / d := by
  induction l with
  | nil => simp
  | cons x t ih => simp [ih, add_div]

/-- A non-empty catalog of positive effective weights has positive total
weight. -/
theorem totalWeight_pos (es : List ErrorDef) (hne : es ≠ [])
    (hpos : ∀ e ∈ es, 0 < effWeight e) : 0 < totalWeight es := by
  rw [totalWeight_eq_sum]
  apply List.sum_pos
  · intro x hx
    obtain ⟨e, he, rfl⟩ := List.mem_map.mp hx
    exact hpos e he
  · simpa using hne

/-- C9: for every non-empty catalog of positive effective weights, after
normalization every entry carries `normalizedWeight = effective weight /
total weight` while keeping its code, message and weight, and the
normalized weights sum to exactly `1`; moreover both a successful
construction and a successful `updateConfig` leave exactly the normalized
catalog in the engine's config. -/
theorem c9_normalized_weights :
    (∀ es : List ErrorDef, es ≠ [] → (∀ e ∈ es, 0 < effWeight e) →
        sumNW (normalizeErrorWeights es) = 1
      ∧ ∀ e ∈ normalizeErrorWeights es, ∃ e0 ∈ es,
          e.code = e0.code ∧ e.message = e0.message ∧ e.weight = e0.weight
          ∧ e.normalizedWeight = effWeight e0 / totalWeight es)
  ∧ (∀ (o : Options) (s : EngineState), construct o = .ok s →
        s.config.errors = normalizeErrorWeights (buildConfig o).errors)
  ∧ (∀ (s s' : EngineState) (u : ConfigUpdate), updateConfig s u = (.ok (), s') →
        s'.config.errors = normalizeErrorWeights (mergeConfig s.config u).errors) := by
  refine ⟨?_, ?_, ?_⟩
  · intro es hne hpos
    have hT : totalWeight es ≠ 0 := ne_of_gt (totalWeight_pos es hne hpos)
    constructor
    · have h1 : sumNW (normalizeErrorWeights es)
          = ((es.map effWeight).map (fun x => x / totalWeight es)).sum := by
        simp only [sumNW, normalizeErrorWeights, List.map_map]
        congr 1
      rw [h1, sum_map_div, ← totalWeight_eq_sum, div_self hT]
    · intro e he
      obtain ⟨e0, he0, rfl⟩ := List.mem_map.mp he
      exact ⟨e0, he0, rfl, rfl, rfl, rfl⟩
  · intro o s h
    cases hv : validateConfig (buildConfig o) with
    | error msg => simp [construct, hv] at h
    | ok u =>
        simp only [construct, hv] at h
        cases h
        rfl
  · intro s s' u h
    cases hv : validateConfig (mergeConfig s.config u) with
    | error msg => simp [updateConfig, hv] at h
    | ok v =>
        simp only [updateConfig, hv] at h
        cases h
        rfl

/-- C9 witness: the test-suite catalog (weights 50/30/20) has normalized
weights summing to exactly `1`, and the default construction holds
exactly the normalized default catalog. -/
theorem c9_witness :
    sumNW (normalizeErrorWeights es3) = 1
  ∧ sDefault.config.errors = normalizeErrorWeights (buildConfig {}).errors :=
  ⟨(c9_normalized_weights.1 es3 (by decide) (by decide)).1,
   c9_normalized_weights.2.1 {} sDefault rfl⟩

end NaaS
